import Mathlib

/-!
Verification development for the Caro_Cosmos repository.

The repository has three logic files embedded here:
  * `handTracking.js` — gesture classifier over 21 hand landmarks plus a
    debounce filter (`HandTracker._isFingerExtended`, `_classifyGesture`,
    `_onResults`);
  * `particles.js` — the particle transition engine
    (`ParticleSystem.setTarget`, `ParticleSystem.update`);
  * `textPoints.js` — the formation generators;
  * `main.js` — the orchestrator (`setFormation`).

Hand-landmark coordinates are modelled as rationals (the classifier only
compares and scales them).  Particle coordinates are modelled as real
numbers; because JavaScript typed arrays can hold IEEE NaN (and the
`setTarget` path can produce NaN via an out-of-range read), a particle
coordinate is an `Option ℝ` where `none` models NaN / undefined.
-/

/- ────────────────────────────────────────────────────────────────
   handTracking.js
   ──────────────────────────────────────────────────────────────── -/

/-- The six gesture constants of `GESTURES` in handTracking.js. -/
inductive Gesture
  | INDEX_UP
  | PEACE
  | ROCK
  | ILY
  | OPEN
  | FIST
  deriving DecidableEq, Repr

/-- The five finger names used by `_isFingerExtended`. -/
inductive Finger
  | thumb
  | index
  | middle
  | ring
  | pinky
  deriving DecidableEq, Repr

/-- One MediaPipe hand landmark.  The classifier and the fingertip
computation only read the `x` and `y` fields (the `z` depth is never
used by this code), so only those are modelled. -/
structure Landmark where
  x : ℚ
  y : ℚ
  deriving DecidableEq, Repr

/-- A landmark set is the JS array `landmarks`, indexed 0..20.  It is
modelled as a total function on `Nat`; the code only reads the fixed
indices 2,3,4,6,8,10,12,14,16,18,20. -/
abbrev LandmarkSet := Nat → Landmark

/-- `HandTracker._isFingerExtended(landmarks, finger)`.
Thumb: `Math.abs(tip.x - mcp.x) > Math.abs(ip.x - mcp.x) * 1.2` with
tip = landmarks[4], ip = landmarks[3], mcp = landmarks[2].
Other fingers: `landmarks[tipIdx].y < landmarks[pipIdx].y` with
(tip, pip) = index (8,6), middle (12,10), ring (16,14), pinky (20,18). -/
def isFingerExtended (lm : LandmarkSet) : Finger → Bool
  | .thumb  => decide (|(lm 4).x - (lm 2).x| > |(lm 3).x - (lm 2).x| * (1.2 : ℚ))
  | .index  => decide ((lm 8).y  < (lm 6).y)
  | .middle => decide ((lm 12).y < (lm 10).y)
  | .ring   => decide ((lm 16).y < (lm 14).y)
  | .pinky  => decide ((lm 20).y < (lm 18).y)

/-- `HandTracker._classifyGesture(landmarks)`: the fixed-priority
cascade ILY, ROCK, PEACE, INDEX_UP, OPEN (≥4 extended), FIST
(≤1 extended), otherwise `null`. -/
def classifyGesture (lm : LandmarkSet) : Option Gesture :=
  let thumb  := isFingerExtended lm .thumb
  let index  := isFingerExtended lm .index
  let middle := isFingerExtended lm .middle
  let ring   := isFingerExtended lm .ring
  let pinky  := isFingerExtended lm .pinky
  let extendedCount := ([thumb, index, middle, ring, pinky].filter (· = true)).length
  if thumb && index && !middle && !ring && pinky then some .ILY
  else if !thumb && index && !middle && !ring && pinky then some .ROCK
  else if index && middle && !ring && !pinky then some .PEACE
  else if index && !middle && !ring && !pinky && !thumb then some .INDEX_UP
  else if 4 ≤ extendedCount then some .OPEN
  else if extendedCount ≤ 1 then some .FIST
  else none

/-- The debounce threshold `this._DEBOUNCE = 3`. -/
def DEBOUNCE_THRESHOLD : Nat := 3

/-- The mutable fields of a `HandTracker` touched by `_onResults`:
`fingerPos`, `gesture`, `_gestureBuffer`, `_gestureCount`. -/
structure TrackerState where
  fingerPos : Option (ℚ × ℚ)
  gesture : Option Gesture
  gestureBuffer : Option Gesture
  gestureCount : Nat
  deriving DecidableEq, Repr

/-- The constructor state: `fingerPos = null`, `gesture = null`,
`_gestureBuffer = null`, `_gestureCount = 0`. -/
def initTracker : TrackerState :=
  { fingerPos := none, gesture := none, gestureBuffer := none, gestureCount := 0 }

/-- The debounce block of `_onResults` (lines 218-229): given the raw
classification of this frame,
`if (raw === buffer) count++ else { buffer = raw; count = 1 }`, then
`if (count >= DEBOUNCE) gesture = raw`. -/
def debounceStep (raw : Option Gesture) (s : TrackerState) : TrackerState :=
  let buf := if raw = s.gestureBuffer then s.gestureBuffer else raw
  let cnt := if raw = s.gestureBuffer then s.gestureCount + 1 else 1
  { s with gestureBuffer := buf
           gestureCount := cnt
           gesture := if DEBOUNCE_THRESHOLD ≤ cnt then raw else s.gesture }

/-- `HandTracker._onResults(results)` restricted to the tracked state
(the webcam-preview drawing only touches the 2D canvas).  `results` is
`some lm` when `results.multiHandLandmarks` is non-empty (with `lm` the
first hand), `none` otherwise.  With a hand: the fingertip position is
set from landmark 8 (`x = -(tip.x*2-1)`, `y = -(tip.y*2-1)`) and the
debounce block runs on the raw classification.  With no hand: only
`fingerPos = null`; the gesture fields are deliberately untouched. -/
def onResults (results : Option LandmarkSet) (s : TrackerState) : TrackerState :=
  match results with
  | some lm =>
      let tip := lm 8
      let s1 := { s with fingerPos := some (-(tip.x * 2 - 1), -(tip.y * 2 - 1)) }
      debounceStep (classifyGesture lm) s1
  | none => { s with fingerPos := none }

/-- Feeding a whole sequence of raw labels, one per call, through the
debounce step. -/
def feedDebounce (s : TrackerState) (l : List (Option Gesture)) : TrackerState :=
  l.foldl (fun s r => debounceStep r s) s

/- ────────────────────────────────────────────────────────────────
   particles.js
   ──────────────────────────────────────────────────────────────── -/

/-- A JavaScript number as stored in the particle buffers: `none`
models IEEE NaN (and an `undefined` typed-array read, which becomes
NaN as soon as it enters arithmetic or a Float32Array store). -/
abbrev JsNum := Option ℝ

/-- NaN-propagating addition. -/
def jadd (a b : JsNum) : JsNum := a.bind fun x => b.map fun y => x + y

/-- NaN-propagating subtraction. -/
def jsub (a b : JsNum) : JsNum := a.bind fun x => b.map fun y => x - y

/-- NaN-propagating multiplication. -/
def jmul (a b : JsNum) : JsNum := a.bind fun x => b.map fun y => x * y

open Classical in
/-- NaN-propagating division.  (In JS a zero denominator yields ±∞ or
NaN; in `ParticleSystem.update` every division is guarded by
`dist > 0.01`, so the zero-denominator case is unreachable and is
modelled as NaN.) -/
noncomputable def jdiv (a b : JsNum) : JsNum :=
  a.bind fun x => b.bind fun y => if y = 0 then none else some (x / y)

open Classical in
/-- `Math.sqrt`: NaN on NaN and on negative input. -/
noncomputable def jsqrt (a : JsNum) : JsNum :=
  a.bind fun x => if x < 0 then none else some (Real.sqrt x)

/-- The JS `<` comparison on numbers: false whenever either side is
NaN. -/
def jlt (a b : JsNum) : Prop :=
  match a, b with
  | some x, some y => x < y
  | _, _ => False

/-- A triple of values, standing for the 3 consecutive slots
`[i*3], [i*3+1], [i*3+2]` a particle owns in a flat buffer. -/
structure V3 (α : Type) where
  x : α
  y : α
  z : α
  deriving DecidableEq, Repr

/-- `tripleFlatAux f i b` flattens the triples `f i, f (i+1), …,
f (i+b-1)` into a flat list, exactly like a JS loop writing
`arr[k*3] = (f k).x; arr[k*3+1] = (f k).y; arr[k*3+2] = (f k).z`. -/
def tripleFlatAux (f : Nat → V3 α) : Nat → Nat → List α
  | _, 0 => []
  | i, b + 1 => (f i).x :: (f i).y :: (f i).z :: tripleFlatAux f (i + 1) b

/-- The flat buffer of `n` triples `f 0, …, f (n-1)`. -/
def tripleFlat (n : Nat) (f : Nat → V3 α) : List α := tripleFlatAux f 0 n

/-- Reading slot `k` of a flat buffer: an out-of-range typed-array read
yields `undefined`, which behaves as NaN downstream, hence `none`. -/
def readJ (l : List JsNum) (k : Nat) : JsNum := (l.get? k).getD none

/-- `PARTICLE_COUNT = 5000`. -/
def PARTICLE_COUNT : Nat := 5000

/-- The `ParticleSystem` fields that the transition logic touches:
`count`, the live `position` attribute array, `_targetPositions`,
`lerpSpeed` (0.08 in the constructor), `attractor`,
`attractRadius` (4.0) and `attractStrength` (0.06).
Rendering-only members (geometry colours/scales, shader material,
`uTime`) are not modelled. -/
structure ParticleSystem where
  count : Nat
  positions : List JsNum
  targetPositions : Option (List JsNum)
  lerpSpeed : ℝ
  attractor : Option (V3 ℝ)
  attractRadius : ℝ
  attractStrength : ℝ

/-- The buffer built by `ParticleSystem.setTarget(targetArray)`:
`srcLen = targetArray.length / 3` (integer division matches JS since
generators always pass whole triples), and for each particle `i` the
three source slots at `si = (i % srcLen) * 3` are copied.  When
`srcLen = 0`, JS computes `i % 0 = NaN`, so `targetArray[NaN]` is an
`undefined` read and the Float32Array stores NaN in all three slots. -/
def setTargetOut (count : Nat) (targetArray : List ℝ) : List JsNum :=
  let srcLen := targetArray.length / 3
  tripleFlat count fun i =>
    if srcLen = 0 then ⟨none, none, none⟩
    else
      let si := (i % srcLen) * 3
      ⟨targetArray.get? si, targetArray.get? (si + 1), targetArray.get? (si + 2)⟩

/-- `ParticleSystem.setTarget(targetArray)`: builds the wrapped buffer
and stores it in `_targetPositions`; the live positions are not
touched by the call itself. -/
def ParticleSystem.setTarget (ps : ParticleSystem) (targetArray : List ℝ) : ParticleSystem :=
  { ps with targetPositions := some (setTargetOut ps.count targetArray) }

/-- Step 1 of the `update` loop body (lines 128-132): lerp one particle
triple toward its target triple,
`pos[k] += (target[k] - pos[k]) * lerpSpeed` for the three slots. -/
def lerpStep (lerpSpeed : ℝ) (target p : V3 JsNum) : V3 JsNum :=
  ⟨jadd p.x (jmul (jsub target.x p.x) (some lerpSpeed)),
   jadd p.y (jmul (jsub target.y p.y) (some lerpSpeed)),
   jadd p.z (jmul (jsub target.z p.z) (some lerpSpeed))⟩

open Classical in
/-- Step 2 of the `update` loop body (lines 135-147): the finger
attractor force.  `dist = sqrt(dx²+dy²+dz²)`; only when
`dist < attractRadius && dist > 0.01` is the displacement
`(d/dist) * force` with `force = attractStrength * (1 - dist/attractRadius)`
added; otherwise the triple is returned unchanged (no division is
performed in that case). -/
noncomputable def attractStep (a : V3 ℝ) (attractRadius attractStrength : ℝ)
    (p : V3 JsNum) : V3 JsNum :=
  let dx := jsub (some a.x) p.x
  let dy := jsub (some a.y) p.y
  let dz := jsub (some a.z) p.z
  let dist := jsqrt (jadd (jadd (jmul dx dx) (jmul dy dy)) (jmul dz dz))
  if jlt dist (some attractRadius) ∧ jlt (some 0.01) dist then
    let force := jmul (some attractStrength) (jsub (some 1) (jdiv dist (some attractRadius)))
    ⟨jadd p.x (jmul (jdiv dx dist) force),
     jadd p.y (jmul (jdiv dy dist) force),
     jadd p.z (jmul (jdiv dz dist) force)⟩
  else p

/-- The whole `update` loop body for particle `i`: read the particle's
three slots, lerp toward the target if `_targetPositions` is set, then
apply the attractor force if `attractor` is set.  (Each iteration only
reads and writes particle `i`'s own slots, so the in-place JS loop is
an independent per-particle map.) -/
noncomputable def particleStep (ps : ParticleSystem) (i : Nat) : V3 JsNum :=
  let p : V3 JsNum :=
    ⟨readJ ps.positions (3 * i), readJ ps.positions (3 * i + 1), readJ ps.positions (3 * i + 2)⟩
  let p1 :=
    match ps.targetPositions with
    | some t => lerpStep ps.lerpSpeed ⟨readJ t (3 * i), readJ t (3 * i + 1), readJ t (3 * i + 2)⟩ p
    | none => p
  match ps.attractor with
  | some a => attractStep a ps.attractRadius ps.attractStrength p1
  | none => p1

/-- `ParticleSystem.update(elapsed)` restricted to the position state
(the `uTime` uniform and `needsUpdate` flag are rendering-only). -/
noncomputable def ParticleSystem.update (ps : ParticleSystem) : ParticleSystem :=
  { ps with positions := tripleFlat ps.count fun i => particleStep ps i }

/- ────────────────────────────────────────────────────────────────
   textPoints.js
   ──────────────────────────────────────────────────────────────── -/

/-- Randomness: the generators call `Math.random()` repeatedly; the
stream of its return values is modelled as a function from the call
number (per generated point) to the drawn value. -/
abbrev Rng := Nat → ℝ

/-- `getSpherePositions(count, radius)`: per point, three draws —
`theta = rand*2π`, `phi = acos(2*rand - 1)`,
`r = radius * cbrt(rand)` — and the spherical-to-Cartesian image.
(`Math.cbrt` on the non-negative draw is real `x ^ (1/3)`.) -/
noncomputable def getSpherePositions (count : Nat) (radius : ℝ) (rng : Rng) : List ℝ :=
  tripleFlat count fun i =>
    let theta := rng (3 * i) * (2 * Real.pi)
    let phi := Real.arccos (2 * rng (3 * i + 1) - 1)
    let r := radius * (rng (3 * i + 2)) ^ ((1 : ℝ) / 3)
    ⟨r * Real.sin phi * Real.cos theta,
     r * Real.sin phi * Real.sin theta,
     r * Real.cos phi⟩

/-- `getHeartPositions(count, scale)`: per point, two draws — the
parameter `t = rand*2π` of the parametric heart and the depth jitter
`z = (rand - 0.5) * 2` — scaled into the output triple. -/
noncomputable def getHeartPositions (count : Nat) (scale : ℝ) (rng : Rng) : List ℝ :=
  tripleFlat count fun i =>
    let t := rng (2 * i) * (2 * Real.pi)
    let x := 16 * (Real.sin t) ^ 3
    let y := 13 * Real.cos t - 5 * Real.cos (2 * t) - 2 * Real.cos (3 * t) - Real.cos (4 * t)
    let z := (rng (2 * i + 1) - 0.5) * 2
    ⟨x * scale * 0.25, y * scale * 0.25, z * 0.3⟩

/-- `getCompactPositions(count, radius)`: identical sampling to the
sphere generator, with the small default radius 1.2. -/
noncomputable def getCompactPositions (count : Nat) (radius : ℝ) (rng : Rng) : List ℝ :=
  tripleFlat count fun i =>
    let theta := rng (3 * i) * (2 * Real.pi)
    let phi := Real.arccos (2 * rng (3 * i + 1) - 1)
    let r := radius * (rng (3 * i + 2)) ^ ((1 : ℝ) / 3)
    ⟨r * Real.sin phi * Real.cos theta,
     r * Real.sin phi * Real.sin theta,
     r * Real.cos phi⟩

/-- `getPlanetPositions(count)`: the first `floor(count * 0.4)` points
fill a radius-2 ball (the body), the rest the ring:
`ringR = 4.0 + (rand-0.5)*1.8`, `y = (rand-0.5)*0.3`, angle uniform. -/
noncomputable def getPlanetPositions (count : Nat) (rng : Rng) : List ℝ :=
  let coreCount := count * 2 / 5
  tripleFlat count fun i =>
    if i < coreCount then
      let theta := rng (3 * i) * (2 * Real.pi)
      let phi := Real.arccos (2 * rng (3 * i + 1) - 1)
      let r := 2 * (rng (3 * i + 2)) ^ ((1 : ℝ) / 3)
      ⟨r * Real.sin phi * Real.cos theta,
       r * Real.sin phi * Real.sin theta,
       r * Real.cos phi⟩
    else
      let angle := rng (3 * i) * (2 * Real.pi)
      let ringR := 4 + (rng (3 * i + 1) - 0.5) * 1.8
      let y := (rng (3 * i + 2) - 0.5) * 0.3
      ⟨Real.cos angle * ringR, y, Real.sin angle * ringR⟩

/-- A triangulated mesh as `sampleSurface` sees it: the `position`
buffer attribute (a vertex per index) with its vertex count, and the
optional index attribute (`geometry.getIndex()`, read via `getX`) with
its entry count. -/
structure MeshGeometry where
  posAttr : Nat → V3 ℝ
  posCount : Nat
  indexAttr : Option (Nat → Nat)
  indexCount : Nat

/-- `THREE.Triangle(a, b, c).getArea()`: half the norm of the cross
product `(b - a) × (c - a)`. -/
noncomputable def triangleArea (a b c : V3 ℝ) : ℝ :=
  let ux := b.x - a.x
  let uy := b.y - a.y
  let uz := b.z - a.z
  let vx := c.x - a.x
  let vy := c.y - a.y
  let vz := c.z - a.z
  Real.sqrt ((uy * vz - uz * vy) ^ 2 + (uz * vx - ux * vz) ^ 2 + (ux * vy - uy * vx) ^ 2) / 2

open Classical in
/-- `sampleSurface(geometry, count)` from textPoints.js.  Per sample:
one draw `r` walks the cumulative triangle-area distribution
(`for (ti = 0; ti < triCount-1; ti++) if (r <= cdf[ti]) break`), two
draws give barycentric coordinates `(u, v)`, folded by
`u = 1-u; v = 1-v` when `u+v > 1`, and the sample is
`a*w + b*u + c*v` with `w = 1-u-v`, per coordinate. -/
noncomputable def sampleSurface (g : MeshGeometry) (count : Nat) (rng : Rng) : List ℝ :=
  let triCount := match g.indexAttr with
    | some _ => g.indexCount / 3
    | none => g.posCount / 3
  let vertIdx : Nat → Nat := fun k =>
    match g.indexAttr with
    | some idx => idx k
    | none => k
  let triA : Nat → V3 ℝ := fun t => g.posAttr (vertIdx (t * 3))
  let triB : Nat → V3 ℝ := fun t => g.posAttr (vertIdx (t * 3 + 1))
  let triC : Nat → V3 ℝ := fun t => g.posAttr (vertIdx (t * 3 + 2))
  let areas : Nat → ℝ := fun t => triangleArea (triA t) (triB t) (triC t)
  let totalArea := ∑ t in Finset.range triCount, areas t
  let cdf : Nat → ℝ := fun t => ∑ j in Finset.range (t + 1), areas j / totalArea
  tripleFlat count fun s =>
    let r := rng (3 * s)
    let ti := (((List.range (triCount - 1)).find? fun t => decide (r ≤ cdf t)).getD (triCount - 1))
    let a := triA ti
    let b := triB ti
    let c := triC ti
    let u0 := rng (3 * s + 1)
    let v0 := rng (3 * s + 2)
    let u := if 1 < u0 + v0 then 1 - u0 else u0
    let v := if 1 < u0 + v0 then 1 - v0 else v0
    let w := 1 - u - v
    ⟨a.x * w + b.x * u + c.x * v,
     a.y * w + b.y * u + c.y * v,
     a.z * w + b.z * u + c.z * v⟩

/-- `getTextPositions(text, count)`: builds a `TextGeometry` for the
string (external three.js library, out of the embedding's scope),
centres it, and samples its triangulated surface; the resulting glyph
mesh enters here as the parameter `g`. -/
noncomputable def getTextPositions (g : MeshGeometry) (count : Nat) (rng : Rng) : List ℝ :=
  sampleSurface g count rng

/- ────────────────────────────────────────────────────────────────
   main.js — orchestrator
   ──────────────────────────────────────────────────────────────── -/

/-- The six formation ids of the `F` object in main.js. -/
inductive Formation
  | PLANET
  | CAROLINA
  | TEQUIERO
  | HEART
  | COSMOS
  | COMPACT
  deriving DecidableEq, Repr

/-- `FORMATION_INFO[id].title` (always present for the six ids). -/
def formationTitle : Formation → String
  | .PLANET => "✨ Un planeta para ti ✨"
  | .CAROLINA => "💖 Carolina 💖"
  | .TEQUIERO => "💜 Te Quiero 💜"
  | .HEART => "❤️ Te Quiero ❤️"
  | .COSMOS => "✨ Las estrellas son tuyas ✨"
  | .COMPACT => "💫 Todo para ti 💫"

/-- The orchestrator state touched by `setFormation`:
`currentFormation`, the memoized `formationData` clouds, the particle
system, and the title element's text. -/
structure MainState where
  currentFormation : Formation
  formationData : Formation → Option (List ℝ)
  particles : ParticleSystem
  title : String

/-- `setFormation(id)` from main.js: returns immediately when `id`
is the current formation or when `formationData[id]` is missing;
otherwise records the id, pushes the cloud into the particle engine
and sets the title text. -/
def setFormation (id : Formation) (s : MainState) : MainState :=
  if id = s.currentFormation then s
  else
    match s.formationData id with
    | none => s
    | some cloud =>
        { s with currentFormation := id
                 particles := s.particles.setTarget cloud
                 title := formationTitle id }

/- ────────────────────────────────────────────────────────────────
   Helper lemmas: flat triple buffers
   ──────────────────────────────────────────────────────────────── -/

lemma tripleFlatAux_length {α : Type} (f : Nat → V3 α) :
    ∀ (b i : Nat), (tripleFlatAux f i b).length = 3 * b := by
  intro b
  induction b with
  | zero => intro i; rfl
  | succ b ih =>
      intro i
      simp only [tripleFlatAux, List.length_cons, ih]
      omega

lemma tripleFlat_length {α : Type} (n : Nat) (f : Nat → V3 α) :
    (tripleFlat n f).length = 3 * n :=
  tripleFlatAux_length f n 0

lemma tripleFlatAux_get {α : Type} (f : Nat → V3 α) :
    ∀ (b i k : Nat), k < b →
      (tripleFlatAux f i b).get? (3 * k) = some (f (i + k)).x ∧
      (tripleFlatAux f i b).get? (3 * k + 1) = some (f (i + k)).y ∧
      (tripleFlatAux f i b).get? (3 * k + 2) = some (f (i + k)).z := by
  intro b
  induction b with
  | zero => intro i k hk; omega
  | succ b ih =>
      intro i k hk
      cases k with
      | zero => simp [tripleFlatAux]
      | succ k =>
          have h0 : 3 * (k + 1) = (3 * k) + 1 + 1 + 1 := by ring
          have h1 : 3 * (k + 1) + 1 = (3 * k + 1) + 1 + 1 + 1 := by ring
          have h2 : 3 * (k + 1) + 2 = (3 * k + 2) + 1 + 1 + 1 := by ring
          have hik : i + (k + 1) = (i + 1) + k := by ring
          obtain ⟨e0, e1, e2⟩ := ih (i + 1) k (by omega)
          refine ⟨?_, ?_, ?_⟩
          · rw [h0, hik, tripleFlatAux]
            simpa using e0
          · rw [h1, hik, tripleFlatAux]
            simpa using e1
          · rw [h2, hik, tripleFlatAux]
            simpa using e2

lemma tripleFlat_get {α : Type} (n : Nat) (f : Nat → V3 α) (k : Nat) (hk : k < n) :
    (tripleFlat n f).get? (3 * k) = some (f k).x ∧
    (tripleFlat n f).get? (3 * k + 1) = some (f k).y ∧
    (tripleFlat n f).get? (3 * k + 2) = some (f k).z := by
  simpa [tripleFlat] using tripleFlatAux_get f n 0 k hk

lemma readJ_tripleFlat (n : Nat) (f : Nat → V3 JsNum) (k : Nat) (hk : k < n) :
    readJ (tripleFlat n f) (3 * k) = (f k).x ∧
    readJ (tripleFlat n f) (3 * k + 1) = (f k).y ∧
    readJ (tripleFlat n f) (3 * k + 2) = (f k).z := by
  obtain ⟨e0, e1, e2⟩ := tripleFlat_get n f k hk
  refine ⟨?_, ?_, ?_⟩
  · unfold readJ
    rw [e0]
    rfl
  · unfold readJ
    rw [e1]
    rfl
  · unfold readJ
    rw [e2]
    rfl

lemma tripleFlatAux_const_none :
    ∀ (b i : Nat),
      tripleFlatAux (fun _ => (⟨none, none, none⟩ : V3 JsNum)) i b
        = List.replicate (3 * b) none := by
  intro b
  induction b with
  | zero => intro i; rfl
  | succ b ih =>
      intro i
      have h3 : 3 * (b + 1) = (3 * b) + 1 + 1 + 1 := by ring
      rw [tripleFlatAux, ih, h3]
      simp [List.replicate_succ]

lemma readJ_replicate_none (m k : Nat) :
    readJ (List.replicate m none) k = none := by
  unfold readJ
  rw [List.get?_eq_getElem?, List.getElem?_replicate]
  split <;> rfl

/- ────────────────────────────────────────────────────────────────
   Helper lemmas: the debounce run-length invariant
   ──────────────────────────────────────────────────────────────── -/

lemma feedDebounce_append (s : TrackerState) (l : List (Option Gesture)) (r : Option Gesture) :
    feedDebounce s (l ++ [r]) = debounceStep r (feedDebounce s l) := by
  simp [feedDebounce, List.foldl_append]

/-- After feeding any raw sequence from the constructor state, the
consecutive counter never exceeds the number of calls, and the last
`gestureCount` raw labels were all equal to the buffered label. -/
lemma debounce_inv (l : List (Option Gesture)) :
    (feedDebounce initTracker l).gestureCount ≤ l.length ∧
    l.drop (l.length - (feedDebounce initTracker l).gestureCount)
      = List.replicate (feedDebounce initTracker l).gestureCount
          (feedDebounce initTracker l).gestureBuffer := by
  induction l using List.reverseRecOn with
  | nil => simp [feedDebounce, initTracker]
  | append_singleton l r ih =>
      obtain ⟨h1, h2⟩ := ih
      rw [feedDebounce_append]
      by_cases hr : r = (feedDebounce initTracker l).gestureBuffer
      · have hcnt : (debounceStep r (feedDebounce initTracker l)).gestureCount
            = (feedDebounce initTracker l).gestureCount + 1 := by
          simp [debounceStep, if_pos hr]
        have hbuf : (debounceStep r (feedDebounce initTracker l)).gestureBuffer
            = (feedDebounce initTracker l).gestureBuffer := by
          simp [debounceStep, if_pos hr]
        rw [hcnt, hbuf]
        constructor
        · simpa using Nat.add_le_add_right h1 1
        · have hidx : (l ++ [r]).length - ((feedDebounce initTracker l).gestureCount + 1)
              = l.length - (feedDebounce initTracker l).gestureCount := by
            simp only [List.length_append, List.length_singleton]
            omega
          have hz : l.length - (feedDebounce initTracker l).gestureCount - l.length = 0 := by
            omega
          rw [hidx, List.drop_append_eq_append_drop, hz, List.drop_zero, h2, hr,
              ← List.replicate_succ']
      · have hcnt : (debounceStep r (feedDebounce initTracker l)).gestureCount = 1 := by
          simp [debounceStep, if_neg hr]
        have hbuf : (debounceStep r (feedDebounce initTracker l)).gestureBuffer = r := by
          simp [debounceStep, if_neg hr]
        rw [hcnt, hbuf]
        constructor
        · simp
        · have hidx : (l ++ [r]).length - 1 = l.length := by simp
          rw [hidx, List.drop_append_eq_append_drop, List.drop_length,
              Nat.sub_self]
          simp

/- ────────────────────────────────────────────────────────────────
   Helper lemmas: single debounce steps
   ──────────────────────────────────────────────────────────────── -/

lemma debounceStep_gestureBuffer_eq (raw : Option Gesture) (s : TrackerState) :
    (debounceStep raw s).gestureBuffer
      = if raw = s.gestureBuffer then s.gestureBuffer else raw := rfl

lemma debounceStep_gestureCount_eq (raw : Option Gesture) (s : TrackerState) :
    (debounceStep raw s).gestureCount
      = if raw = s.gestureBuffer then s.gestureCount + 1 else 1 := rfl

lemma debounceStep_gesture_eq (raw : Option Gesture) (s : TrackerState) :
    (debounceStep raw s).gesture
      = if DEBOUNCE_THRESHOLD ≤ (if raw = s.gestureBuffer then s.gestureCount + 1 else 1)
        then raw else s.gesture := rfl

/-- The buffered label after a step is always the incoming raw label
(both branches of the `if` end with the buffer equal to `raw`). -/
lemma debounceStep_buffer_raw (raw : Option Gesture) (s : TrackerState) :
    (debounceStep raw s).gestureBuffer = raw := by
  rw [debounceStep_gestureBuffer_eq]
  by_cases h : raw = s.gestureBuffer
  · rw [if_pos h, h]
  · rw [if_neg h]

/- ────────────────────────────────────────────────────────────────
   Claims C1, C2, C3, C10
   ──────────────────────────────────────────────────────────────── -/

/-- Claim C1: feeding raw gesture labels one per call into the
debouncer step from the initial state (empty buffer, count 0), the
committed stable label changes only when the incoming raw label has
been identical on at least 3 consecutive calls (the last three calls,
current included, all carried that label); in particular the sequence
[FIST, FIST, OPEN, OPEN, OPEN] never commits FIST and commits OPEN
exactly at the 5th call, the 3rd consecutive OPEN. -/
theorem c1_debounce_commit_needs_three_consecutive :
    (∀ (l : List (Option Gesture)) (r : Option Gesture),
        (debounceStep r (feedDebounce initTracker l)).gesture
          ≠ (feedDebounce initTracker l).gesture →
        3 ≤ (l ++ [r]).length ∧
        (l ++ [r]).drop ((l ++ [r]).length - 3) = List.replicate 3 r) ∧
    ((List.range 5).map (fun n =>
        (feedDebounce initTracker
          ([some .FIST, some .FIST, some .OPEN, some .OPEN, some .OPEN].take (n + 1))).gesture)
      = [none, none, none, none, some Gesture.OPEN]) := by
  constructor
  · intro l r hchg
    set s := feedDebounce initTracker l with hs
    have hcnt3 : DEBOUNCE_THRESHOLD ≤ (debounceStep r s).gestureCount := by
      by_contra hlt
      apply hchg
      rw [debounceStep_gesture_eq, ← debounceStep_gestureCount_eq, if_neg hlt]
    obtain ⟨hle, hsuf⟩ := debounce_inv (l ++ [r])
    rw [feedDebounce_append, ← hs] at hle hsuf
    rw [debounceStep_buffer_raw] at hsuf
    have h3 : DEBOUNCE_THRESHOLD = 3 := rfl
    rw [h3] at hcnt3
    refine ⟨le_trans hcnt3 hle, ?_⟩
    have hsplit : (l ++ [r]).length - 3
        = ((l ++ [r]).length - (debounceStep r s).gestureCount)
          + ((debounceStep r s).gestureCount - 3) := by
      omega
    rw [hsplit, ← List.drop_drop, hsuf, List.drop_replicate]
    congr 1
    omega
  · decide

/-- Claim C1 witness: with the two-call history [OPEN, OPEN] and a third
raw OPEN the stable label does change, and the conclusion exhibits the
three consecutive OPEN calls. -/
theorem c1_debounce_commit_needs_three_consecutive_witness :
    3 ≤ (([some Gesture.OPEN, some Gesture.OPEN] ++ [some Gesture.OPEN]).length) ∧
    (([some Gesture.OPEN, some Gesture.OPEN] ++ [some Gesture.OPEN]).drop
        (([some Gesture.OPEN, some Gesture.OPEN] ++ [some Gesture.OPEN]).length - 3))
      = List.replicate 3 (some Gesture.OPEN) :=
  c1_debounce_commit_needs_three_consecutive.1
    [some .OPEN, some .OPEN] (some .OPEN) (by decide)

/-- Claim C2: whenever the computed finger flags read thumb extended,
index extended, middle curled, ring curled, pinky extended, the
classifier returns ILY — the first branch of the fixed evaluation
order ILY, ROCK, PEACE, INDEX_UP, OPEN, FIST, so no later pattern can
pre-empt it. -/
theorem c2_ily_first_match (lm : LandmarkSet)
    (ht : isFingerExtended lm .thumb = true)
    (hi : isFingerExtended lm .index = true)
    (hm : isFingerExtended lm .middle = false)
    (hr : isFingerExtended lm .ring = false)
    (hp : isFingerExtended lm .pinky = true) :
    classifyGesture lm = some Gesture.ILY := by
  simp [classifyGesture, ht, hi, hm, hr, hp]

/-- A concrete landmark set whose flags are exactly
thumb+index+pinky extended, middle+ring curled. -/
def lmILY : LandmarkSet := fun n =>
  match n with
  | 2 => ⟨0, 0⟩
  | 3 => ⟨1/10, 0⟩
  | 4 => ⟨2/10, 0⟩
  | 6 => ⟨0, 5/10⟩
  | 8 => ⟨0, 2/10⟩
  | 10 => ⟨0, 5/10⟩
  | 12 => ⟨0, 6/10⟩
  | 14 => ⟨0, 5/10⟩
  | 16 => ⟨0, 6/10⟩
  | 18 => ⟨0, 5/10⟩
  | 20 => ⟨0, 2/10⟩
  | _ => ⟨0, 0⟩

/-- Claim C2 witness: the classifier maps `lmILY` to ILY.  (The flag
evaluations go through `simp`/`norm_num` because `Rat` normalisation
does not reduce in the kernel.) -/
theorem c2_ily_first_match_witness : classifyGesture lmILY = some Gesture.ILY :=
  c2_ily_first_match lmILY
    (by
      simp only [isFingerExtended, lmILY, decide_eq_true_eq]
      rw [show |(2 : ℚ)/10 - 0| = 2/10 by rw [abs_of_nonneg] <;> norm_num,
          show |(1 : ℚ)/10 - 0| = 1/10 by rw [abs_of_nonneg] <;> norm_num]
      norm_num)
    (by
      simp only [isFingerExtended, lmILY, decide_eq_true_eq]
      norm_num)
    (by
      simp only [isFingerExtended, lmILY, decide_eq_false_iff_not]
      norm_num)
    (by
      simp only [isFingerExtended, lmILY, decide_eq_false_iff_not]
      norm_num)
    (by
      simp only [isFingerExtended, lmILY, decide_eq_true_eq]
      norm_num)

/-- Claim C3: a zero-hands detection result clears the fingertip
position to null and leaves the committed stable label, the buffered
raw label and the consecutive count unchanged; in particular a stable
PEACE survives a no-hand frame. -/
theorem c3_no_hand_keeps_stable (s : TrackerState) :
    (onResults none s).fingerPos = none ∧
    (onResults none s).gesture = s.gesture ∧
    (onResults none s).gestureBuffer = s.gestureBuffer ∧
    (onResults none s).gestureCount = s.gestureCount ∧
    (s.gesture = some Gesture.PEACE → (onResults none s).gesture = some Gesture.PEACE) :=
  ⟨rfl, rfl, rfl, rfl, fun h => h⟩

/-- Claim C3 witness: a tracker with stable PEACE, fed a no-hand frame,
still reports PEACE. -/
theorem c3_no_hand_keeps_stable_witness :
    (onResults none ⟨none, some Gesture.PEACE, some Gesture.PEACE, 5⟩).gesture
      = some Gesture.PEACE :=
  (c3_no_hand_keeps_stable ⟨none, some Gesture.PEACE, some Gesture.PEACE, 5⟩).2.2.2.2 rfl

/-- Three consecutive null raw classifications drive the committed
stable label to null, from any starting state. -/
lemma debounceStep_none_three (t : TrackerState) :
    (debounceStep none (debounceStep none (debounceStep none t))).gesture = none := by
  obtain ⟨fp, g, buf, cnt⟩ := t
  by_cases hb : (none : Option Gesture) = buf
  · simp only [debounceStep, ← hb, if_pos rfl, DEBOUNCE_THRESHOLD]
    split <;> simp_all
  · simp [debounceStep, if_neg hb, DEBOUNCE_THRESHOLD]

/-- Claim C10: a visible hand whose finger pattern matches no gesture
classifies to null, and that null is debounced like any raw label, so
three consecutive such frames commit a null stable gesture; no-hand
frames, by contrast, never change the stable gesture. -/
theorem c10_ambiguous_hand_clears_stable (s : TrackerState)
    (lm1 lm2 lm3 : LandmarkSet)
    (h1 : classifyGesture lm1 = none)
    (h2 : classifyGesture lm2 = none)
    (h3 : classifyGesture lm3 = none) :
    (onResults (some lm3) (onResults (some lm2) (onResults (some lm1) s))).gesture = none ∧
    ∀ s' : TrackerState, (onResults none s').gesture = s'.gesture := by
  refine ⟨?_, fun s' => rfl⟩
  simp only [onResults]
  rw [h1, h2, h3]
  exact debounceStep_none_three _

/-- A concrete landmark set read as index+ring extended, everything
else curled: matched by none of the six patterns. -/
def lmAmbiguous : LandmarkSet := fun n =>
  match n with
  | 6 => ⟨0, 5/10⟩
  | 8 => ⟨0, 2/10⟩
  | 10 => ⟨0, 5/10⟩
  | 12 => ⟨0, 6/10⟩
  | 14 => ⟨0, 5/10⟩
  | 16 => ⟨0, 2/10⟩
  | 18 => ⟨0, 5/10⟩
  | 20 => ⟨0, 6/10⟩
  | _ => ⟨0, 0⟩

/-- `lmAmbiguous` classifies to null (2 fingers extended, no pattern). -/
lemma lmAmbiguous_classify : classifyGesture lmAmbiguous = none := by
  have ht : isFingerExtended lmAmbiguous .thumb = false := by
    simp only [isFingerExtended, lmAmbiguous, decide_eq_false_iff_not]
    norm_num
  have hi : isFingerExtended lmAmbiguous .index = true := by
    simp only [isFingerExtended, lmAmbiguous, decide_eq_true_eq]
    norm_num
  have hm : isFingerExtended lmAmbiguous .middle = false := by
    simp only [isFingerExtended, lmAmbiguous, decide_eq_false_iff_not]
    norm_num
  have hr : isFingerExtended lmAmbiguous .ring = true := by
    simp only [isFingerExtended, lmAmbiguous, decide_eq_true_eq]
    norm_num
  have hp : isFingerExtended lmAmbiguous .pinky = false := by
    simp only [isFingerExtended, lmAmbiguous, decide_eq_false_iff_not]
    norm_num
  simp [classifyGesture, ht, hi, hm, hr, hp]

/-- Claim C10 witness: from the constructor state, three frames of the
ambiguous hand leave a null stable gesture. -/
theorem c10_ambiguous_hand_clears_stable_witness :
    (onResults (some lmAmbiguous)
      (onResults (some lmAmbiguous) (onResults (some lmAmbiguous) initTracker))).gesture = none :=
  (c10_ambiguous_hand_clears_stable initTracker lmAmbiguous lmAmbiguous lmAmbiguous
    lmAmbiguous_classify lmAmbiguous_classify lmAmbiguous_classify).1

/- ────────────────────────────────────────────────────────────────
   Helper lemmas: NaN propagation in the particle engine
   ──────────────────────────────────────────────────────────────── -/

@[simp] lemma jsub_none_left (b : JsNum) : jsub none b = none := rfl

@[simp] lemma jsub_none_right (a : JsNum) : jsub a none = none := by
  cases a <;> rfl

@[simp] lemma jmul_none_left (b : JsNum) : jmul none b = none := rfl

@[simp] lemma jmul_none_right (a : JsNum) : jmul a none = none := by
  cases a <;> rfl

@[simp] lemma jadd_none_left (b : JsNum) : jadd none b = none := rfl

@[simp] lemma jadd_none_right (a : JsNum) : jadd a none = none := by
  cases a <;> rfl

@[simp] lemma jsqrt_none : jsqrt none = none := rfl

@[simp] lemma jlt_none_left (b : JsNum) : ¬ jlt none b := by
  cases b <;> exact fun h => h

@[simp] lemma jadd_some_some (x y : ℝ) : jadd (some x) (some y) = some (x + y) := rfl

@[simp] lemma jsub_some_some (x y : ℝ) : jsub (some x) (some y) = some (x - y) := rfl

@[simp] lemma jmul_some_some (x y : ℝ) : jmul (some x) (some y) = some (x * y) := rfl

@[simp] lemma jlt_some_some (x y : ℝ) : jlt (some x) (some y) ↔ x < y := Iff.rfl

/-- A NaN-filled target triple makes the lerp output NaN in all three
slots, whatever the current position. -/
lemma lerpStep_target_none (sp : ℝ) (p : V3 JsNum) :
    lerpStep sp ⟨none, none, none⟩ p = ⟨none, none, none⟩ := by
  simp [lerpStep]

/-- A NaN particle is invisible to the attractor: the NaN distance
fails the `dist < radius` comparison, so the triple is unchanged. -/
lemma attractStep_nan (a : V3 ℝ) (r st : ℝ) :
    attractStep a r st ⟨none, none, none⟩ = ⟨none, none, none⟩ := by
  unfold attractStep
  rw [if_neg]
  rintro ⟨hl, -⟩
  simp at hl

/-- `setTarget` with an empty array: `srcLen = 0`, so every slot of the
built target buffer is NaN. -/
lemma setTargetOut_nil (count : Nat) :
    setTargetOut count [] = List.replicate (3 * count) none := by
  unfold setTargetOut tripleFlat
  simp only [List.length_nil, Nat.zero_div, if_pos rfl]
  exact tripleFlatAux_const_none count 0

/-- With an all-NaN target buffer installed, one update frame
overwrites every live slot of every particle with NaN. -/
lemma particleStep_nan_target (ps : ParticleSystem) (i : Nat)
    (ht : ps.targetPositions = some (List.replicate (3 * ps.count) none)) :
    particleStep ps i = ⟨none, none, none⟩ := by
  unfold particleStep
  rw [ht]
  simp only [readJ_replicate_none, lerpStep_target_none]
  cases ps.attractor with
  | none => rfl
  | some a => exact attractStep_nan a ps.attractRadius ps.attractStrength

lemma update_after_nan_target (ps : ParticleSystem)
    (ht : ps.targetPositions = some (List.replicate (3 * ps.count) none)) :
    (ps.update).positions = List.replicate (3 * ps.count) none := by
  show tripleFlat ps.count (fun i => particleStep ps i) = _
  unfold tripleFlat
  rw [show (fun i => particleStep ps i) = (fun _ => (⟨none, none, none⟩ : V3 JsNum)) from
        funext fun i => particleStep_nan_target ps i ht]
  exact tripleFlatAux_const_none ps.count 0

/- ────────────────────────────────────────────────────────────────
   Claim C4 (corrected)
   ──────────────────────────────────────────────────────────────── -/

/-- A concrete one-particle system with live positions (1, 2, 3). -/
noncomputable def psSmall : ParticleSystem :=
  { count := 1
    positions := [some 1, some 2, some 3]
    targetPositions := none
    lerpSpeed := 0.08
    attractor := none
    attractRadius := 4
    attractStrength := 0.06 }

/-- Claim C4 counterexample: `setTarget` with an empty cloud leaves the
live positions alone at the call itself, but the very next `update`
frame corrupts all live positions to NaN — the claim that subsequent
update frames leave the live buffer uncorrupted fails at this input. -/
theorem c4_counterexample_empty_setTarget_corrupts :
    (psSmall.setTarget []).positions = [some 1, some 2, some 3] ∧
    ((psSmall.setTarget []).update).positions = [none, none, none] ∧
    ([none, none, none] : List JsNum) ≠ [some 1, some 2, some 3] := by
  refine ⟨rfl, ?_, by simp⟩
  have h := update_after_nan_target (psSmall.setTarget [])
    (by
      show some (setTargetOut 1 []) = _
      rw [setTargetOut_nil]
      rfl)
  simpa using h

/-- Claim C4 as amended: `setTarget` with an empty point cloud does not
throw (it is total) and does not itself mutate the live positions, but
it is not a no-op: it installs an all-NaN target buffer (JS `i % 0` is
NaN, so `targetArray[NaN]` reads `undefined`), and the next update
frame overwrites every live coordinate with NaN. -/
theorem c4_amended_empty_setTarget_nan (ps : ParticleSystem) :
    (ps.setTarget []).positions = ps.positions ∧
    (ps.setTarget []).targetPositions = some (List.replicate (3 * ps.count) none) ∧
    ((ps.setTarget []).update).positions = List.replicate (3 * ps.count) none := by
  refine ⟨rfl, ?_, ?_⟩
  · show some (setTargetOut ps.count []) = _
    rw [setTargetOut_nil]
  · exact update_after_nan_target (ps.setTarget [])
      (by
        show some (setTargetOut ps.count []) = _
        rw [setTargetOut_nil]
        rfl)

/- ────────────────────────────────────────────────────────────────
   Claim C8
   ──────────────────────────────────────────────────────────────── -/

/-- Claim C8: for a source array of `srcLen ≥ 1` whole points,
`setTarget` builds a buffer of exactly `count` points in which point
`i` is source point `i % srcLen`, coordinate for coordinate — cyclic
wrap when the source is shorter than the particle count, wrap-truncate
when longer; every copied coordinate is a real in-range source read. -/
theorem c8_setTarget_wraps_cyclically (ps : ParticleSystem) (tA : List ℝ) (srcLen : Nat)
    (hlen : tA.length = 3 * srcLen) (hpos : 1 ≤ srcLen) :
    (ps.setTarget tA).targetPositions = some (setTargetOut ps.count tA) ∧
    (setTargetOut ps.count tA).length = 3 * ps.count ∧
    ∀ i, i < ps.count →
      ((setTargetOut ps.count tA).get? (3 * i) = some (tA.get? ((i % srcLen) * 3)) ∧
       (setTargetOut ps.count tA).get? (3 * i + 1) = some (tA.get? ((i % srcLen) * 3 + 1)) ∧
       (setTargetOut ps.count tA).get? (3 * i + 2) = some (tA.get? ((i % srcLen) * 3 + 2))) ∧
      ∃ v0 v1 v2 : ℝ,
        tA.get? ((i % srcLen) * 3) = some v0 ∧
        tA.get? ((i % srcLen) * 3 + 1) = some v1 ∧
        tA.get? ((i % srcLen) * 3 + 2) = some v2 := by
  have hsrc : tA.length / 3 = srcLen := by omega
  refine ⟨rfl, ?_, ?_⟩
  · unfold setTargetOut
    exact tripleFlat_length _ _
  · intro i hi
    have hmod : i % srcLen < srcLen := Nat.mod_lt i (by omega)
    constructor
    · obtain ⟨e0, e1, e2⟩ := tripleFlat_get ps.count
        (fun i =>
          if tA.length / 3 = 0 then (⟨none, none, none⟩ : V3 JsNum)
          else
            ⟨tA.get? ((i % (tA.length / 3)) * 3),
             tA.get? ((i % (tA.length / 3)) * 3 + 1),
             tA.get? ((i % (tA.length / 3)) * 3 + 2)⟩) i hi
      refine ⟨?_, ?_, ?_⟩
      · show (tripleFlat ps.count _).get? (3 * i) = _
        rw [e0]
        simp only [hsrc, if_neg (by omega : ¬ srcLen = 0)]
      · show (tripleFlat ps.count _).get? (3 * i + 1) = _
        rw [e1]
        simp only [hsrc, if_neg (by omega : ¬ srcLen = 0)]
      · show (tripleFlat ps.count _).get? (3 * i + 2) = _
        rw [e2]
        simp only [hsrc, if_neg (by omega : ¬ srcLen = 0)]
    · have h0 : (i % srcLen) * 3 < tA.length := by omega
      have h1 : (i % srcLen) * 3 + 1 < tA.length := by omega
      have h2 : (i % srcLen) * 3 + 2 < tA.length := by omega
      exact ⟨tA.get ⟨_, h0⟩, tA.get ⟨_, h1⟩, tA.get ⟨_, h2⟩,
             List.get?_eq_get h0, List.get?_eq_get h1, List.get?_eq_get h2⟩

/-- A two-particle system used to witness the wrap. -/
noncomputable def psTwo : ParticleSystem :=
  { count := 2
    positions := []
    targetPositions := none
    lerpSpeed := 0.08
    attractor := none
    attractRadius := 4
    attractStrength := 0.06 }

/-- Claim C8 witness: with a one-point source [1, 2, 3] and two
particles, target point 1 wraps back to source point 0. -/
theorem c8_setTarget_wraps_cyclically_witness :
    (setTargetOut 2 [1, 2, 3]).get? 3 = some (([1, 2, 3] : List ℝ).get? 0) := by
  have h := (((c8_setTarget_wraps_cyclically psTwo [1, 2, 3] 1 (by norm_num) le_rfl).2.2
      1 (by norm_num [psTwo])).1).1
  simpa [psTwo] using h

/- ────────────────────────────────────────────────────────────────
   Claim C6
   ──────────────────────────────────────────────────────────────── -/

lemma jdiv_some_some (x y : ℝ) (h : y ≠ 0) : jdiv (some x) (some y) = some (x / y) := by
  unfold jdiv
  simp [h]

lemma jsqrt_some_of_nonneg (x : ℝ) (h : 0 ≤ x) : jsqrt (some x) = some (Real.sqrt x) := by
  unfold jsqrt
  simp [not_lt.mpr h]

/-- The distance `Math.sqrt(dx*dx + dy*dy + dz*dz)` computed by the
attractor branch of `update`, for a real-valued particle. -/
noncomputable def attractDist (a : V3 ℝ) (px py pz : ℝ) : ℝ :=
  Real.sqrt ((a.x - px) * (a.x - px) + (a.y - py) * (a.y - py) + (a.z - pz) * (a.z - pz))

/-- Claim C6: the attraction step adds zero displacement when the
particle's distance to the attractor is ≥ the radius 4.0 or ≤ the
epsilon 0.01 (so among others exactly at the boundary and below the
epsilon the triple is untouched, and the division by the distance only
happens inside the in-range branch); for 0.01 < dist < 4 it adds the
unit vector toward the attractor scaled by 0.06 × (1 − dist/4). -/
theorem c6_attract_force_guard (a : V3 ℝ) (px py pz : ℝ) :
    (4 ≤ attractDist a px py pz ∨ attractDist a px py pz ≤ 0.01 →
      attractStep a 4 0.06 ⟨some px, some py, some pz⟩ = ⟨some px, some py, some pz⟩) ∧
    (0.01 < attractDist a px py pz → attractDist a px py pz < 4 →
      attractStep a 4 0.06 ⟨some px, some py, some pz⟩ =
        ⟨some (px + (a.x - px) / attractDist a px py pz
                 * (0.06 * (1 - attractDist a px py pz / 4))),
         some (py + (a.y - py) / attractDist a px py pz
                 * (0.06 * (1 - attractDist a px py pz / 4))),
         some (pz + (a.z - pz) / attractDist a px py pz
                 * (0.06 * (1 - attractDist a px py pz / 4)))⟩) := by
  have hS : (0 : ℝ) ≤ (a.x - px) * (a.x - px) + (a.y - py) * (a.y - py)
      + (a.z - pz) * (a.z - pz) := by
    have h1 := mul_self_nonneg (a.x - px)
    have h2 := mul_self_nonneg (a.y - py)
    have h3 := mul_self_nonneg (a.z - pz)
    linarith
  have hd : jsqrt (some ((a.x - px) * (a.x - px) + (a.y - py) * (a.y - py)
      + (a.z - pz) * (a.z - pz))) = some (attractDist a px py pz) := by
    rw [jsqrt_some_of_nonneg _ hS]
    rfl
  constructor
  · intro hcase
    simp only [attractStep, jsub_some_some, jmul_some_some, jadd_some_some]
    rw [if_neg]
    rw [hd]
    rintro ⟨hlt, hgt⟩
    rw [jlt_some_some] at hlt hgt
    rcases hcase with h | h
    · exact absurd hlt (not_lt.mpr h)
    · exact absurd hgt (not_lt.mpr h)
  · intro heps hrad
    have hne : attractDist a px py pz ≠ 0 := by
      intro h0
      rw [h0] at heps
      norm_num at heps
    simp only [attractStep, jsub_some_some, jmul_some_some, jadd_some_some]
    rw [if_pos ⟨by rw [hd] ; exact hrad, by rw [hd] ; exact heps⟩, hd,
        jdiv_some_some (attractDist a px py pz) 4 (by norm_num),
        jdiv_some_some (a.x - px) _ hne, jdiv_some_some (a.y - py) _ hne,
        jdiv_some_some (a.z - pz) _ hne]
    simp only [jsub_some_some, jmul_some_some, jadd_some_some]

/-- Claim C6 witness: a particle at the origin with the attractor at
(4,0,0) sits exactly on the radius boundary and is not displaced; with
the attractor at (0.005,0,0) the distance is below the 0.01 epsilon
and it is again not displaced. -/
theorem c6_attract_force_guard_witness :
    attractStep ⟨4, 0, 0⟩ 4 0.06 ⟨some 0, some 0, some 0⟩ = ⟨some 0, some 0, some 0⟩ ∧
    attractStep ⟨0.005, 0, 0⟩ 4 0.06 ⟨some 0, some 0, some 0⟩ = ⟨some 0, some 0, some 0⟩ := by
  have e1 : attractDist ⟨4, 0, 0⟩ 0 0 0 = 4 := by
    show Real.sqrt ((4 - 0) * (4 - 0) + (0 - 0) * (0 - 0) + (0 - 0) * (0 - 0)) = 4
    rw [show ((4 : ℝ) - 0) * ((4 : ℝ) - 0) + ((0 : ℝ) - 0) * ((0 : ℝ) - 0)
          + ((0 : ℝ) - 0) * ((0 : ℝ) - 0) = 4 ^ 2 by norm_num]
    exact Real.sqrt_sq (by norm_num)
  have e2 : attractDist ⟨0.005, 0, 0⟩ 0 0 0 = 0.005 := by
    show Real.sqrt ((0.005 - 0) * (0.005 - 0) + (0 - 0) * (0 - 0) + (0 - 0) * (0 - 0)) = 0.005
    rw [show ((0.005 : ℝ) - 0) * ((0.005 : ℝ) - 0) + ((0 : ℝ) - 0) * ((0 : ℝ) - 0)
          + ((0 : ℝ) - 0) * ((0 : ℝ) - 0) = 0.005 ^ 2 by norm_num]
    exact Real.sqrt_sq (by norm_num)
  constructor
  · exact (c6_attract_force_guard ⟨4, 0, 0⟩ 0 0 0).1 (Or.inl (by rw [e1]))
  · exact (c6_attract_force_guard ⟨0.005, 0, 0⟩ 0 0 0).1 (Or.inr (by rw [e2] ; norm_num))

/- ────────────────────────────────────────────────────────────────
   Helper lemmas: the pure-lerp frame (no attractor)
   ──────────────────────────────────────────────────────────────── -/

lemma update_targetPositions (ps : ParticleSystem) :
    ps.update.targetPositions = ps.targetPositions := rfl

lemma update_attractor (ps : ParticleSystem) : ps.update.attractor = ps.attractor := rfl

lemma update_count (ps : ParticleSystem) : ps.update.count = ps.count := rfl

lemma update_lerpSpeed (ps : ParticleSystem) : ps.update.lerpSpeed = ps.lerpSpeed := rfl

lemma update_positions_length (ps : ParticleSystem) :
    ps.update.positions.length = 3 * ps.count :=
  tripleFlat_length ps.count _

/-- With a target installed and no attractor, the update loop body for
particle `i` is exactly the lerp of its triple toward the target's. -/
lemma particleStep_no_attractor (ps : ParticleSystem) (t : List JsNum)
    (ht : ps.targetPositions = some t) (hattr : ps.attractor = none) (i : Nat) :
    particleStep ps i
      = lerpStep ps.lerpSpeed
          ⟨readJ t (3 * i), readJ t (3 * i + 1), readJ t (3 * i + 2)⟩
          ⟨readJ ps.positions (3 * i), readJ ps.positions (3 * i + 1),
           readJ ps.positions (3 * i + 2)⟩ := by
  unfold particleStep
  rw [ht, hattr]

/-- One update frame, coordinate `3*i + j`: the new value moves the old
one by the fraction `lerpSpeed` of its remaining gap to the target. -/
lemma update_coord (ps : ParticleSystem) (t : List JsNum)
    (ht : ps.targetPositions = some t) (hattr : ps.attractor = none)
    (i j : Nat) (hi : i < ps.count) (hj : j < 3) (p τ : ℝ)
    (hp : readJ ps.positions (3 * i + j) = some p)
    (hτ : readJ t (3 * i + j) = some τ) :
    readJ ps.update.positions (3 * i + j) = some (p + (τ - p) * ps.lerpSpeed) := by
  obtain ⟨e0, e1, e2⟩ := readJ_tripleFlat ps.count (fun i => particleStep ps i) i hi
  interval_cases j
  · rw [show 3 * i + 0 = 3 * i by ring] at hp hτ ⊢
    show readJ (tripleFlat ps.count fun i => particleStep ps i) (3 * i) = _
    rw [e0, particleStep_no_attractor ps t ht hattr, lerpStep, hp, hτ]
    simp
  · show readJ (tripleFlat ps.count fun i => particleStep ps i) (3 * i + 1) = _
    rw [e1, particleStep_no_attractor ps t ht hattr, lerpStep, hp, hτ]
    simp
  · show readJ (tripleFlat ps.count fun i => particleStep ps i) (3 * i + 2) = _
    rw [e2, particleStep_no_attractor ps t ht hattr, lerpStep, hp, hτ]
    simp

/-- Iterating `update` with a fixed target and no attractor: the fields
are preserved and coordinate `3*i + j` follows the closed exponential
form `τ - (1 - lerpSpeed)^n (τ - p)`. -/
lemma update_iterate_coord (ps : ParticleSystem) (t : List JsNum)
    (ht : ps.targetPositions = some t) (hattr : ps.attractor = none)
    (i j : Nat) (hi : i < ps.count) (hj : j < 3) (p τ : ℝ)
    (hp : readJ ps.positions (3 * i + j) = some p)
    (hτ : readJ t (3 * i + j) = some τ) :
    ∀ n : Nat,
      ((ParticleSystem.update)^[n] ps).targetPositions = some t ∧
      ((ParticleSystem.update)^[n] ps).attractor = none ∧
      ((ParticleSystem.update)^[n] ps).count = ps.count ∧
      ((ParticleSystem.update)^[n] ps).lerpSpeed = ps.lerpSpeed ∧
      readJ ((ParticleSystem.update)^[n] ps).positions (3 * i + j)
        = some (τ - (1 - ps.lerpSpeed) ^ n * (τ - p)) := by
  intro n
  induction n with
  | zero =>
      refine ⟨ht, hattr, rfl, rfl, ?_⟩
      rw [Function.iterate_zero_apply, hp]
      congr 1
      ring
  | succ n ih =>
      obtain ⟨iht, ihattr, ihcount, ihlerp, ihpos⟩ := ih
      rw [Function.iterate_succ_apply']
      refine ⟨iht, ihattr, ihcount, ihlerp, ?_⟩
      rw [update_coord ((ParticleSystem.update)^[n] ps) t iht ihattr i j
            (ihcount ▸ hi) hj _ τ ihpos hτ, ihlerp]
      congr 1
      ring

/- ────────────────────────────────────────────────────────────────
   Claim C5
   ──────────────────────────────────────────────────────────────── -/

/-- Claim C5: with a target set, no attractor and the constructor lerp
speed 0.08, one update moves every live coordinate by exactly 8% of
its remaining gap to the target, so the gap shrinks by the factor 0.92
each frame; after `n` frames the coordinate is `τ − 0.92ⁿ(τ − p)`, any
ε > 0 is reached within a bounded number of frames uniformly over all
coordinates, and a coordinate not already at the target never equals
it exactly. -/
theorem c5_lerp_exponential_convergence (ps : ParticleSystem) (t : List JsNum)
    (ht : ps.targetPositions = some t)
    (hattr : ps.attractor = none)
    (hlerp : ps.lerpSpeed = 0.08) :
    (∀ i j, i < ps.count → j < 3 → ∀ p τ : ℝ,
        readJ ps.positions (3 * i + j) = some p →
        readJ t (3 * i + j) = some τ →
        (readJ ps.update.positions (3 * i + j) = some (p + (τ - p) * 0.08) ∧
         τ - (p + (τ - p) * 0.08) = 0.92 * (τ - p) ∧
         |τ - (p + (τ - p) * 0.08)| = 0.92 * |τ - p| ∧
         (∀ n : Nat, readJ ((ParticleSystem.update)^[n] ps).positions (3 * i + j)
            = some (τ - 0.92 ^ n * (τ - p))) ∧
         (p ≠ τ → ∀ n : Nat, τ - 0.92 ^ n * (τ - p) ≠ τ))) ∧
    (∀ ε : ℝ, 0 < ε → ∃ n : Nat, ∀ i j, i < ps.count → j < 3 → ∀ p τ pn : ℝ,
        readJ ps.positions (3 * i + j) = some p →
        readJ t (3 * i + j) = some τ →
        readJ ((ParticleSystem.update)^[n] ps).positions (3 * i + j) = some pn →
        |τ - pn| < ε) := by
  have h92 : (1 : ℝ) - ps.lerpSpeed = 0.92 := by
    rw [hlerp]
    norm_num
  constructor
  · intro i j hi hj p τ hp hτ
    refine ⟨?_, by ring, ?_, ?_, ?_⟩
    · rw [update_coord ps t ht hattr i j hi hj p τ hp hτ, hlerp]
    · rw [show τ - (p + (τ - p) * 0.08) = 0.92 * (τ - p) by ring, abs_mul]
      congr 1
      rw [abs_of_nonneg]
      norm_num
    · intro n
      have h := (update_iterate_coord ps t ht hattr i j hi hj p τ hp hτ n).2.2.2.2
      rw [h92] at h
      exact h
    · intro hne n
      rw [Ne, sub_eq_self]
      exact mul_ne_zero (pow_ne_zero n (by norm_num)) (sub_ne_zero.mpr (Ne.symm hne))
  · intro ε hε
    set g : Nat → ℝ := fun k => |(readJ t k).getD 0 - (readJ ps.positions k).getD 0| with hg
    have hgnn : ∀ k, 0 ≤ g k := fun k => abs_nonneg _
    set D : ℝ := (∑ k in Finset.range (3 * ps.count), g k) + 1 with hD
    have hDpos : 0 < D := by
      have : 0 ≤ ∑ k in Finset.range (3 * ps.count), g k :=
        Finset.sum_nonneg fun k _ => hgnn k
      rw [hD]
      linarith
    obtain ⟨n, hn⟩ := exists_pow_lt_of_lt_one (div_pos hε hDpos) (by norm_num : (0.92 : ℝ) < 1)
    refine ⟨n, ?_⟩
    intro i j hi hj p τ pn hp hτ hpn
    have hclosed := (update_iterate_coord ps t ht hattr i j hi hj p τ hp hτ n).2.2.2.2
    rw [h92] at hclosed
    have hpneq : pn = τ - 0.92 ^ n * (τ - p) := by
      have h2 := hclosed ▸ hpn
      exact (Option.some.inj h2).symm
    have hgk : g (3 * i + j) = |τ - p| := by
      rw [hg]
      simp only [hp, hτ, Option.getD_some]
    have hmem : 3 * i + j ∈ Finset.range (3 * ps.count) := by
      rw [Finset.mem_range]
      omega
    have hle : |τ - p| ≤ D := by
      rw [hD, ← hgk]
      have := Finset.single_le_sum (fun k _ => hgnn k) hmem
      linarith
    have hpow : (0 : ℝ) ≤ 0.92 ^ n := by positivity
    calc |τ - pn| = 0.92 ^ n * |τ - p| := by
            rw [hpneq, show τ - (τ - 0.92 ^ n * (τ - p)) = 0.92 ^ n * (τ - p) by ring,
                abs_mul, abs_of_nonneg hpow]
      _ ≤ 0.92 ^ n * D := by
            exact mul_le_mul_of_nonneg_left hle hpow
      _ < ε := by
            rw [lt_div_iff₀ hDpos] at hn
            exact hn

/-- A one-particle system at the origin targeting (1, 1, 1). -/
noncomputable def psOne : ParticleSystem :=
  { count := 1
    positions := [some 0, some 0, some 0]
    targetPositions := some [some 1, some 1, some 1]
    lerpSpeed := 0.08
    attractor := none
    attractRadius := 4
    attractStrength := 0.06 }

/-- Claim C5 witness: the first coordinate of `psOne` moves by exactly
8% of its unit gap in one frame. -/
theorem c5_lerp_exponential_convergence_witness :
    readJ psOne.update.positions 0 = some (0 + (1 - 0) * 0.08) :=
  ((c5_lerp_exponential_convergence psOne [some 1, some 1, some 1] rfl rfl rfl).1
    0 0 Nat.one_pos (by norm_num) 0 1 rfl rfl).1

/- ────────────────────────────────────────────────────────────────
   Claims C7 and C9
   ──────────────────────────────────────────────────────────────── -/

/-- Claim C7: every formation generator returns a flat buffer of
exactly count × 3 floating-point values — sphere, heart, compact
cluster, planet, and text over any triangulated glyph mesh — and in
particular with the global particle count 5000 each returns exactly
15000 values. -/
theorem c7_generators_length (count : Nat) (radius scale : ℝ) (rng : Rng) (g : MeshGeometry) :
    (getSpherePositions count radius rng).length = count * 3 ∧
    (getHeartPositions count scale rng).length = count * 3 ∧
    (getCompactPositions count radius rng).length = count * 3 ∧
    (getPlanetPositions count rng).length = count * 3 ∧
    (getTextPositions g count rng).length = count * 3 ∧
    (getSpherePositions PARTICLE_COUNT radius rng).length = 15000 ∧
    (getHeartPositions PARTICLE_COUNT scale rng).length = 15000 ∧
    (getCompactPositions PARTICLE_COUNT radius rng).length = 15000 ∧
    (getPlanetPositions PARTICLE_COUNT rng).length = 15000 ∧
    (getTextPositions g PARTICLE_COUNT rng).length = 15000 := by
  have hs : ∀ (c : Nat) (r : ℝ), (getSpherePositions c r rng).length = c * 3 := by
    intro c r
    simp only [getSpherePositions]
    rw [tripleFlat_length]
    ring
  have hh : ∀ (c : Nat) (sc : ℝ), (getHeartPositions c sc rng).length = c * 3 := by
    intro c sc
    simp only [getHeartPositions]
    rw [tripleFlat_length]
    ring
  have hc : ∀ (c : Nat) (r : ℝ), (getCompactPositions c r rng).length = c * 3 := by
    intro c r
    simp only [getCompactPositions]
    rw [tripleFlat_length]
    ring
  have hp : ∀ (c : Nat), (getPlanetPositions c rng).length = c * 3 := by
    intro c
    simp only [getPlanetPositions]
    rw [tripleFlat_length]
    ring
  have htx : ∀ (c : Nat), (getTextPositions g c rng).length = c * 3 := by
    intro c
    simp only [getTextPositions, sampleSurface]
    rw [tripleFlat_length]
    ring
  refine ⟨hs count radius, hh count scale, hc count radius, hp count, htx count,
          ?_, ?_, ?_, ?_, ?_⟩
  all_goals
    rw [show (15000 : Nat) = PARTICLE_COUNT * 3 from rfl]
  · exact hs PARTICLE_COUNT radius
  · exact hh PARTICLE_COUNT scale
  · exact hc PARTICLE_COUNT radius
  · exact hp PARTICLE_COUNT
  · exact htx PARTICLE_COUNT

/-- Claim C9: `setFormation` with the currently active id, or with an
id whose point cloud was never precomputed, is a total no-op — the
current formation id, the engine target and the title text are all
left exactly as they were. -/
theorem c9_setFormation_noop (s : MainState) (id : Formation)
    (h : id = s.currentFormation ∨ s.formationData id = none) :
    setFormation id s = s := by
  unfold setFormation
  rcases h with h | h
  · rw [if_pos h]
  · by_cases he : id = s.currentFormation
    · rw [if_pos he]
    · rw [if_neg he, h]

/-- An empty particle system for the orchestrator witness. -/
noncomputable def psIdle : ParticleSystem :=
  { count := 0
    positions := []
    targetPositions := none
    lerpSpeed := 0.08
    attractor := none
    attractRadius := 4
    attractStrength := 0.06 }

/-- An orchestrator state with no precomputed clouds. -/
noncomputable def mainIdle : MainState :=
  { currentFormation := Formation.COSMOS
    formationData := fun _ => none
    particles := psIdle
    title := "" }

/-- Claim C9 witness: requesting PLANET, whose cloud is missing in
`mainIdle`, changes nothing. -/
theorem c9_setFormation_noop_witness : setFormation Formation.PLANET mainIdle = mainIdle :=
  c9_setFormation_noop mainIdle Formation.PLANET (Or.inr rfl)
